import Mathlib

/-!
Shallow embedding of `gammapy/cube/models.py`: the sky-model / background-model
composition algebra (addition operators, parameter aggregation) and the
evaluation routines (factorised product, cube interpolation, background tilt).

External collaborators (the `Map` storage contract, the parameter container of
`gammapy.utils.fitting`, spatial and spectral sub-models) are modelled from the
spec's interface contracts; everything else is translated from the source.
-/

namespace Gammapy

/-- Error kinds raised by the module, named after the spec's logical error
vocabulary.  `notImplemented` is the `NotImplementedError` of the addition
operators (the spec's `UnsupportedCombination`); `invalidAxisSemantics` is the
`ValueError` of the construction-time axis checks; `indexError` and
`unboundLocal` are the accidental Python failures of evaluating an empty
collection (`self.skymodels[0]` on an empty list, `return vals` with `vals`
never assigned); `emptyCollection` and `shapeMismatch` are the designed error
kinds the spec names. -/
inductive Err where
  | notImplemented
  | invalidAxisSemantics
  | indexError
  | unboundLocal
  | emptyCollection
  | shapeMismatch
deriving DecidableEq

/-- A fitting parameter (`gammapy.utils.fitting.Parameter`, consumed contract):
a named scalar with value, unit, optional lower bound and a frozen flag. -/
structure Parameter where
  name : String
  value : ℝ
  unit : String := ""
  min : Option ℝ := none
  frozen : Bool := false

/-- Modelled from the spec: the parameter container of `gammapy.utils.fitting`
(outside `src/`) exposes name-indexed lookup `parameters["name"]` over the
stored list; first match by name wins. -/
def paramsLookup (ps : List Parameter) (n : String) : Parameter :=
  (ps.find? (fun p => p.name == n)).getD ⟨n, 0, "", none, false⟩

/-- Node semantics of a map axis: `node_type` is `"center"` or `"edges"`. -/
inductive NodeType where
  | center
  | edges
deriving DecidableEq

/-- Energy axis of a map geometry (Map contract): node semantics and bin
centers.  `center i` is the bin-center energy of bin `i`, already carrying the
axis unit (quantities are represented canonically as reals). -/
structure EnergyAxis where
  nodeType : NodeType
  center : ℕ → ℝ

/-- Map geometry (Map contract): exposes the energy axis by name. -/
structure MapGeom where
  energyAxis : EnergyAxis

/-- A coordinate record `{lon, lat, energy}` with plain degree-valued angles. -/
structure Coord where
  lon : ℝ
  lat : ℝ
  energy : ℝ

/-- Modelled from the spec: the `gammapy.maps.Map` contract (outside `src/`).
`data e y x` is the array value at energy bin `e` and spatial pixel `(y, x)`.
Interpolation internals are out of scope: `interpFn` is the map's abstract
interpolator (per interpolation mode) and `inDomain` its coordinate domain;
`interp_by_coord` below combines them with the fill-value policy. -/
structure Map where
  geom : MapGeom
  unit : String
  data : ℕ → ℕ → ℕ → ℝ
  interpFn : String → Coord → ℝ
  inDomain : Coord → Bool

/-- `Map.copy(data=...)`: a new map with the same geometry and unit but
replaced data (Map contract). -/
def Map.copy (m : Map) (data : ℕ → ℕ → ℕ → ℝ) : Map :=
  { m with data := data }

/-- Modelled from the spec: `Map.interp_by_coord(coord, interp, fill_value)`
interpolates the map at a coordinate record with the given mode; a coordinate
outside the map's domain yields the fill value (never extrapolates, never
fails). -/
def Map.interp_by_coord (m : Map) (c : Coord) (interp : String) (fill_value : ℝ) : ℝ :=
  if m.inDomain c then m.interpFn interp c else fill_value

/-- An angle quantity; `deg` is its value in degrees, so `to_value("deg")`
reads the field. -/
structure Angle where
  deg : ℝ

/-- A physical quantity: a value tagged with a unit string. -/
structure Quantity where
  value : ℝ
  unit : String

/-! ### Multidimensional arrays and numpy broadcasting

`SkyModel.evaluate` multiplies two numpy arrays under broadcasting.  An array
is a shape together with a lookup on multi-indices. -/

/-- A numpy-style array: a shape (list of dimension sizes, outermost first)
and the element at each multi-index. -/
structure NdArr where
  shape : List ℕ
  data : List ℕ → ℝ

/-- Broadcast two reversed shape lists (innermost dimension first): dimensions
are compatible when equal or when one of them is 1; the missing leading
dimensions of the shorter shape behave as 1. -/
def broadcastRev : List ℕ → List ℕ → Option (List ℕ)
  | [], ds => some ds
  | ds, [] => some ds
  | d1 :: t1, d2 :: t2 =>
    if d1 = d2 ∨ d1 = 1 ∨ d2 = 1 then
      (broadcastRev t1 t2).map (fun r => (if d1 = 1 then d2 else d1) :: r)
    else
      none

/-- Numpy broadcasting of two shapes: `none` when incompatible. -/
def broadcastShapes (s1 s2 : List ℕ) : Option (List ℕ) :=
  (broadcastRev s1.reverse s2.reverse).map List.reverse

/-- Index an operand of shape `shape` inside a broadcast result: keep the last
`shape.length` components of the result index and send every size-1 dimension
to index 0. -/
def bIdx (shape idx : List ℕ) : List ℕ :=
  List.zipWith (fun d i => if d = 1 then 0 else i) shape (idx.drop (idx.length - shape.length))

/-- Element-wise product of two arrays under numpy broadcasting;
`shapeMismatch` when the shapes are not broadcast-compatible. -/
def NdArr.mul (a b : NdArr) : Except Err NdArr :=
  match broadcastShapes a.shape b.shape with
  | none => .error .shapeMismatch
  | some sh => .ok ⟨sh, fun idx => a.data (bIdx a.shape idx) * b.data (bIdx b.shape idx)⟩

/-! ### Spatial and spectral sub-models (consumed contracts)

A spatial model is called at `(lon, lat)` and a spectral model at `energy`;
both expose their own parameter list.  The source callables are numpy
rank-polymorphic; we record their scalar behaviour (`eval`) and their
array behaviour (`call`) as separate fields of the same interface. -/

/-- A spatial sub-model (`gammapy.image.models.SkySpatialModel` contract). -/
structure SpatialModel where
  parameters : List Parameter
  eval : Angle → Angle → ℝ
  call : NdArr → NdArr → NdArr

/-- A spectral sub-model (`gammapy.spectrum.models.SpectralModel` contract). -/
structure SpectralModel where
  parameters : List Parameter
  eval : ℝ → ℝ
  call : NdArr → NdArr

/-! ### Sky-side models -/

/-- `SkyModel.__init__`: stores the name and both sub-models and hands the
fitting framework the concatenation
`spatial_model.parameters.parameters + spectral_model.parameters.parameters`. -/
structure SkyModel where
  name : String
  spatial_model : SpatialModel
  spectral_model : SpectralModel
  parameters : List Parameter

/-- `SkyModel(spatial_model, spectral_model, name)`. -/
def SkyModel.init (spatial_model : SpatialModel) (spectral_model : SpectralModel)
    (name : String := "SkyModel") : SkyModel :=
  { name := name
    spatial_model := spatial_model
    spectral_model := spectral_model
    parameters := spatial_model.parameters ++ spectral_model.parameters }

/-- `SkyModel.evaluate(lon, lat, energy)` at scalar coordinates: the product
of the spatial value at `(lon, lat)` and the spectral value at `energy`. -/
def SkyModel.evaluate (m : SkyModel) (lon lat : Angle) (energy : ℝ) : ℝ :=
  m.spatial_model.eval lon lat * m.spectral_model.eval energy

/-- `SkyModel.evaluate(lon, lat, energy)` at array coordinates: the numpy
broadcast product `val_spatial * val_spectral` of the two component outputs;
incompatible shapes fail with `shapeMismatch`. -/
def SkyModel.evaluateArr (m : SkyModel) (lon lat energy : NdArr) : Except Err NdArr :=
  NdArr.mul (m.spatial_model.call lon lat) (m.spectral_model.call energy)

/-- `SkyDiffuseCube`: a cube template map, its `norm` parameter, meta mapping,
the resolved interpolation keyword arguments, and the parameter list handed to
the fitting framework. -/
structure SkyDiffuseCube where
  map : Map
  norm : Parameter
  meta : List (String × String)
  interp : String
  fill_value : ℝ
  parameters : List Parameter

/-- Optional `interp_kwargs` of `SkyDiffuseCube.__init__`. -/
structure InterpKwargs where
  interp : Option String := none
  fill_value : Option ℝ := none

/-- `SkyDiffuseCube(map, norm, meta, interp_kwargs)`: rejects a map whose
energy axis is not bin-center (`node_type != "center"`), wraps `norm` as a
parameter, and defaults the interpolation kwargs to
`{interp: "linear", fill_value: 0}`. -/
def SkyDiffuseCube.init (map : Map) (norm : ℝ := 1)
    (meta : Option (List (String × String)) := none)
    (interp_kwargs : Option InterpKwargs := none) : Except Err SkyDiffuseCube :=
  if map.geom.energyAxis.nodeType ≠ NodeType.center then
    .error .invalidAxisSemantics
  else
    let normPar : Parameter := ⟨"norm", norm, "", none, false⟩
    let kw := interp_kwargs.getD {}
    .ok { map := map
          norm := normPar
          meta := meta.getD []
          interp := kw.interp.getD "linear"
          fill_value := kw.fill_value.getD 0
          parameters := [normPar] }

/-- `SkyDiffuseCube.evaluate(lon, lat, energy)`: converts `lon`/`lat` to plain
degree values, builds the coordinate record, interpolates the map with the
configured mode and fill value, and returns `norm * val` carrying the map's
unit. -/
def SkyDiffuseCube.evaluate (c : SkyDiffuseCube) (lon lat : Angle) (energy : ℝ) : Quantity :=
  let coord : Coord := ⟨lon.deg, lat.deg, energy⟩
  let val := c.map.interp_by_coord coord c.interp c.fill_value
  let norm := (paramsLookup c.parameters "norm").value
  ⟨norm * val, c.map.unit⟩

/-- A sky-side leaf model: a `SkyModel` or a `SkyDiffuseCube`
(the `isinstance(…, (SkyModel, SkyDiffuseCube))` family). -/
inductive SkyLeaf where
  | model : SkyModel → SkyLeaf
  | cube : SkyDiffuseCube → SkyLeaf

/-- A leaf's own parameter list. -/
def SkyLeaf.parameters : SkyLeaf → List Parameter
  | .model m => m.parameters
  | .cube c => c.parameters

/-- A leaf's scalar evaluation. -/
def SkyLeaf.evaluate : SkyLeaf → Angle → Angle → ℝ → ℝ
  | .model m => fun lon lat energy => m.evaluate lon lat energy
  | .cube c => fun lon lat energy => (c.evaluate lon lat energy).value

/-- `SkyModels`: the member list together with the parameter list handed to
the fitting framework at construction time. -/
structure SkyModels where
  skymodels : List SkyLeaf
  parameters : List Parameter

/-- `SkyModels.__init__`: stores the member list and aggregates parameters
with the loop `for skymodel: for p in skymodel.parameters: append(p)`. -/
def SkyModels.init (skymodels : List SkyLeaf) : SkyModels :=
  { skymodels := skymodels
    parameters := skymodels.foldl (fun acc m => acc ++ m.parameters) [] }

/-- The right-hand operand of the sky-side addition operators: a leaf, a
collection, or a value of any other runtime type. -/
inductive SkyAddend where
  | leaf : SkyLeaf → SkyAddend
  | models : SkyModels → SkyAddend
  | incompatible : SkyAddend

/-- The member list contributed by an addend (for stating ordering laws). -/
def SkyAddend.members : SkyAddend → List SkyLeaf
  | .leaf m => [m]
  | .models s => s.skymodels
  | .incompatible => []

/-- `SkyModelBase.__add__` (receiver a leaf): start from `[self]`, splice a
collection's members or append a leaf, else `NotImplementedError`; wrap as a
fresh `SkyModels`. -/
def SkyModelBase.add (self : SkyLeaf) (skymodel : SkyAddend) : Except Err SkyModels :=
  match skymodel with
  | .models s => .ok (SkyModels.init ([self] ++ s.skymodels))
  | .leaf m => .ok (SkyModels.init ([self] ++ [m]))
  | .incompatible => .error .notImplemented

/-- `SkyModelBase.__radd__`: delegates to `self.__add__(model)`. -/
def SkyModelBase.radd (self : SkyLeaf) (model : SkyAddend) : Except Err SkyModels :=
  SkyModelBase.add self model

/-- `SkyModels.__add__`: copy the member list, extend it with the right
operand's members, and construct a fresh `SkyModels` from the result. -/
def SkyModels.add (self : SkyModels) (skymodel : SkyAddend) : Except Err SkyModels :=
  match skymodel with
  | .models s => .ok (SkyModels.init (self.skymodels ++ s.skymodels))
  | .leaf m => .ok (SkyModels.init (self.skymodels ++ [m]))
  | .incompatible => .error .notImplemented

/-- `SkyModels.__iadd__`: extend `self.skymodels` in place; the stored
parameter list is not recomputed (the source touches only `self.skymodels`). -/
def SkyModels.iadd (self : SkyModels) (skymodel : SkyAddend) : Except Err SkyModels :=
  match skymodel with
  | .models s => .ok { self with skymodels := self.skymodels ++ s.skymodels }
  | .leaf m => .ok { self with skymodels := self.skymodels ++ [m] }
  | .incompatible => .error .notImplemented

/-- `SkyModels.evaluate(lon, lat, energy)`: evaluate the first member
(`self.skymodels[0]` — an index error on an empty list), then accumulate the
remaining members' evaluations in order. -/
def SkyModels.evaluate (s : SkyModels) (lon lat : Angle) (energy : ℝ) : Except Err ℝ :=
  match s.skymodels with
  | [] => .error .indexError
  | m :: rest => .ok (rest.foldl (fun out sm => out + sm.evaluate lon lat energy)
      (m.evaluate lon lat energy))

/-! ### Background-side models -/

/-- `BackgroundModel`: the wrapped map, the `norm`, `tilt` and `reference`
parameters, and the parameter list handed to the fitting framework. -/
structure BackgroundModel where
  map : Map
  norm : Parameter
  tilt : Parameter
  reference : Parameter
  parameters : List Parameter

/-- `BackgroundModel(background, norm, tilt, reference)`: rejects a map whose
energy axis is not bin-edge (`node_type != "edges"`), then wraps the three
scalars as parameters (`norm` bounded below by 0, `tilt` and `reference`
frozen; `reference` is an energy quantity, default `1 TeV`). -/
def BackgroundModel.init (background : Map) (norm : ℝ := 1) (tilt : ℝ := 0)
    (reference : ℝ := 1) : Except Err BackgroundModel :=
  if background.geom.energyAxis.nodeType ≠ NodeType.edges then
    .error .invalidAxisSemantics
  else
    let normPar : Parameter := ⟨"norm", norm, "", some 0, false⟩
    let tiltPar : Parameter := ⟨"tilt", tilt, "", none, true⟩
    let refPar : Parameter := ⟨"reference", reference, "TeV", none, true⟩
    .ok { map := background
          norm := normPar
          tilt := tiltPar
          reference := refPar
          parameters := [normPar, tiltPar, refPar] }

/-- `BackgroundModel.energy_center`: the energy-axis bin centers as an energy
quantity (the numpy version appends two trailing singleton axes so the values
broadcast over the spatial axes; here the broadcast is explicit in
`backValues`). -/
def BackgroundModel.energy_center (m : BackgroundModel) : ℕ → ℝ :=
  fun e => m.map.geom.energyAxis.center e

/-- The body of `BackgroundModel.evaluate`:
`norm * map.data * ((energy_center / reference) ** (-tilt))`, the tilt factor
broadcast across the two spatial axes. -/
noncomputable def backValues (norm tilt reference : ℝ) (center : ℕ → ℝ)
    (data : ℕ → ℕ → ℕ → ℝ) : ℕ → ℕ → ℕ → ℝ :=
  fun e y x => norm * data e y x * (center e / reference) ^ (-tilt)

/-- `BackgroundModel.evaluate()`: read `norm` and `tilt` values and the
`reference` quantity from the parameter container, compute the tilted data and
return `self.map.copy(data=back_values)`. -/
noncomputable def BackgroundModel.evaluate (m : BackgroundModel) : Map :=
  let norm := (paramsLookup m.parameters "norm").value
  let tilt := (paramsLookup m.parameters "tilt").value
  let reference := (paramsLookup m.parameters "reference").value
  m.map.copy (backValues norm tilt reference m.energy_center m.map.data)

/-- `BackgroundModels`: the member list together with the parameter list
aggregated at construction time. -/
structure BackgroundModels where
  models : List BackgroundModel
  parameters : List Parameter

/-- `BackgroundModels.__init__`: stores the member list and aggregates
parameters with the loop `for model: for p in model.parameters: append(p)`. -/
def BackgroundModels.init (models : List BackgroundModel) : BackgroundModels :=
  { models := models
    parameters := models.foldl (fun acc m => acc ++ m.parameters) [] }

/-- The right-hand operand of the background-side addition operators. -/
inductive BgAddend where
  | model : BackgroundModel → BgAddend
  | models : BackgroundModels → BgAddend
  | incompatible : BgAddend

/-- The member list contributed by a background addend. -/
def BgAddend.members : BgAddend → List BackgroundModel
  | .model m => [m]
  | .models s => s.models
  | .incompatible => []

/-- `BackgroundModel.__add__`: start from `[self]`, splice a collection's
members or append a leaf, else `NotImplementedError`; wrap as a fresh
`BackgroundModels`. -/
def BackgroundModel.add (self : BackgroundModel) (model : BgAddend) :
    Except Err BackgroundModels :=
  match model with
  | .models s => .ok (BackgroundModels.init ([self] ++ s.models))
  | .model m => .ok (BackgroundModels.init ([self] ++ [m]))
  | .incompatible => .error .notImplemented

/-- `BackgroundModels.__iadd__`: extend `self.models` in place; the stored
parameter list is not recomputed (the source touches only `self.models`). -/
def BackgroundModels.iadd (self : BackgroundModels) (model : BgAddend) :
    Except Err BackgroundModels :=
  match model with
  | .models s => .ok { self with models := self.models ++ s.models }
  | .model m => .ok { self with models := self.models ++ [m] }
  | .incompatible => .error .notImplemented

/-- Modelled from the spec: `Model.copy` of the fitting framework (outside
`src/`) is a deep copy; on immutable values a deep copy is the value itself. -/
def BackgroundModels.copy (self : BackgroundModels) : BackgroundModels :=
  self

/-- `BackgroundModels.__add__`: `model_ = self.copy(); model_ += model`. -/
def BackgroundModels.add (self : BackgroundModels) (model : BgAddend) :
    Except Err BackgroundModels :=
  BackgroundModels.iadd (BackgroundModels.copy self) model

/-- Modelled from the spec: in-place addition of two maps (`vals += …`, Map
contract) adds the data arrays element-wise. -/
def Map.iaddMap (a b : Map) : Map :=
  { a with data := fun e y x => a.data e y x + b.data e y x }

/-- `BackgroundModels.evaluate()`: `vals` is first assigned at loop index 0
and accumulated afterwards; on an empty member list the final `return vals`
reads a never-assigned local. -/
noncomputable def BackgroundModels.evaluate (s : BackgroundModels) : Except Err Map :=
  match s.models with
  | [] => .error .unboundLocal
  | m :: rest => .ok (rest.foldl (fun vals mm => vals.iaddMap mm.evaluate) m.evaluate)

/-! ### A reference-semantics view of `BackgroundModel.evaluate`

To state the frame effect of `evaluate` (the wrapped data array is read, never
written, and the returned map holds a freshly allocated array), arrays are put
in an explicit store and maps hold array references; `evaluate` allocates the
result array at a fresh reference. -/

/-- The contents of one numpy array. -/
def ArrData : Type := ℕ → ℕ → ℕ → ℝ

/-- A store of allocated arrays; a reference is an index into the list. -/
structure Store where
  arrays : List ArrData

/-- Read the array behind a reference (arbitrary default when dangling). -/
def Store.lookup (s : Store) (r : ℕ) : ArrData :=
  (s.arrays.getD r (fun _ _ _ => 0))

/-- Allocate a fresh array: it lives at reference `s.arrays.length`. -/
def Store.alloc (s : Store) (d : ArrData) : Store × ℕ :=
  (⟨s.arrays ++ [d]⟩, s.arrays.length)

/-- Overwrite the array behind a reference. -/
def Store.write (s : Store) (r : ℕ) (d : ArrData) : Store :=
  ⟨s.arrays.set r d⟩

/-- A map whose data array lives in the store. -/
structure RefMap where
  geom : MapGeom
  unit : String
  dataRef : ℕ

/-- A background model whose wrapped map holds an array reference. -/
structure BackgroundModelRef where
  map : RefMap
  norm : Parameter
  tilt : Parameter
  reference : Parameter
  parameters : List Parameter

/-- `BackgroundModel.evaluate()` with explicit allocation: reads the wrapped
array, computes `back_values` (a new array), allocates it, and returns the
post-state of `self`, the new store, and `self.map.copy(data=back_values)`
pointing at the fresh reference.  The method writes no field of `self`. -/
noncomputable def BackgroundModelRef.evaluateRef (s : Store) (m : BackgroundModelRef) :
    Store × BackgroundModelRef × RefMap :=
  let norm := (paramsLookup m.parameters "norm").value
  let tilt := (paramsLookup m.parameters "tilt").value
  let reference := (paramsLookup m.parameters "reference").value
  let center := fun e => m.map.geom.energyAxis.center e
  let back := backValues norm tilt reference center (s.lookup m.map.dataRef)
  let alloc := s.alloc back
  (alloc.1, m, { m.map with dataRef := alloc.2 })

/-! ### Concrete instances used by witnesses and counterexamples -/

/-- A concrete parameter. -/
def pEx1 : Parameter := ⟨"p1", 1, "", none, false⟩

/-- Another concrete parameter. -/
def pEx2 : Parameter := ⟨"p2", 2, "", none, false⟩

/-- A concrete spatial sub-model with one parameter; its array call returns
its first argument. -/
def spatialEx : SpatialModel := ⟨[pEx1], fun _ _ => 1, fun a _ => a⟩

/-- A concrete spectral sub-model with one parameter; its array call is the
identity. -/
def spectralEx : SpectralModel := ⟨[pEx2], fun _ => 1, fun a => a⟩

/-- A concrete factorised sky model. -/
def skyModelEx : SkyModel := SkyModel.init spatialEx spectralEx "m"

/-- A concrete map whose energy axis has bin-edge nodes; no coordinate is in
its interpolation domain. -/
def mapEdgesEx : Map :=
  ⟨⟨⟨NodeType.edges, fun _ => 1⟩⟩, "", fun _ _ _ => 3, fun _ _ => 0, fun _ => false⟩

/-- A concrete map whose energy axis has bin-center nodes; no coordinate is in
its interpolation domain. -/
def mapCenterEx : Map :=
  ⟨⟨⟨NodeType.center, fun _ => 1⟩⟩, "", fun _ _ _ => 3, fun _ _ => 0, fun _ => false⟩

/-- A concrete length-2 array. -/
def arr2 : NdArr := ⟨[2], fun _ => 5⟩

/-- A concrete length-3 array. -/
def arr3 : NdArr := ⟨[3], fun _ => 7⟩

/-- The background model constructed from `mapEdgesEx` with `norm = 2`,
`tilt = 0`, `reference = 1`. -/
def bgModelEx : BackgroundModel :=
  ⟨mapEdgesEx, ⟨"norm", 2, "", some 0, false⟩, ⟨"tilt", 0, "", none, true⟩,
   ⟨"reference", 1, "TeV", none, true⟩,
   [⟨"norm", 2, "", some 0, false⟩, ⟨"tilt", 0, "", none, true⟩,
    ⟨"reference", 1, "TeV", none, true⟩]⟩

/-- The cube template constructed from `mapCenterEx` with `norm = 3` and
default interpolation kwargs. -/
def cubeEx : SkyDiffuseCube :=
  ⟨mapCenterEx, ⟨"norm", 3, "", none, false⟩, [], "linear", 0,
   [⟨"norm", 3, "", none, false⟩]⟩

/-- A store holding one array. -/
def storeEx : Store := ⟨[fun _ _ _ => 1]⟩

/-- A reference-semantics background model whose map points at array 0. -/
def bgRefEx : BackgroundModelRef :=
  ⟨⟨⟨⟨NodeType.edges, fun _ => 1⟩⟩, "", 0⟩, ⟨"norm", 1, "", some 0, false⟩,
   ⟨"tilt", 0, "", none, true⟩, ⟨"reference", 1, "TeV", none, true⟩,
   [⟨"norm", 1, "", some 0, false⟩, ⟨"tilt", 0, "", none, true⟩,
    ⟨"reference", 1, "TeV", none, true⟩]⟩

/-! ### Helper lemmas -/

/-- The parameter-aggregation loop (`foldl` with append) is the flattening of
the children's parameter lists. -/
theorem foldl_append_eq_flatten {α : Type} (f : α → List Parameter) :
    ∀ (l : List α) (acc : List Parameter),
      l.foldl (fun a m => a ++ f m) acc = acc ++ (l.map f).flatten := by
  intro l
  induction l with
  | nil => intro acc; simp
  | cons h t ih => intro acc; simp [List.foldl_cons, ih]

/-- Setting the freshly appended last cell of a list replaces it. -/
theorem set_append_last {α : Type} (l : List α) (b d : α) :
    (l ++ [b]).set l.length d = l ++ [d] := by
  induction l with
  | nil => rfl
  | cons h t ih => simp [List.set, ih]

/-! ### Claims -/

/-- C1: combining two same-family leaves yields a 2-member collection
`[left, right]`; a leaf plus a same-family collection yields the leaf followed
by the collection's members; a collection plus a same-family leaf or
collection yields the left operand's members followed by the right operand's,
both preserved in order — on the sky side and on the background side. -/
theorem C1_combination_member_lists :
    (∀ a b : SkyLeaf,
      (SkyModelBase.add a (.leaf b)).map SkyModels.skymodels = .ok [a, b])
    ∧ (∀ (a : SkyLeaf) (s : SkyModels),
      (SkyModelBase.add a (.models s)).map SkyModels.skymodels = .ok (a :: s.skymodels))
    ∧ (∀ (s : SkyModels) (b : SkyLeaf),
      (SkyModels.add s (.leaf b)).map SkyModels.skymodels = .ok (s.skymodels ++ [b]))
    ∧ (∀ s t : SkyModels,
      (SkyModels.add s (.models t)).map SkyModels.skymodels = .ok (s.skymodels ++ t.skymodels))
    ∧ (∀ a b : BackgroundModel,
      (BackgroundModel.add a (.model b)).map BackgroundModels.models = .ok [a, b])
    ∧ (∀ (a : BackgroundModel) (s : BackgroundModels),
      (BackgroundModel.add a (.models s)).map BackgroundModels.models = .ok (a :: s.models))
    ∧ (∀ (s : BackgroundModels) (b : BackgroundModel),
      (BackgroundModels.add s (.model b)).map BackgroundModels.models = .ok (s.models ++ [b]))
    ∧ (∀ s t : BackgroundModels,
      (BackgroundModels.add s (.models t)).map BackgroundModels.models = .ok (s.models ++ t.models)) :=
  ⟨fun _ _ => rfl, fun _ _ => rfl, fun _ _ => rfl, fun _ _ => rfl,
   fun _ _ => rfl, fun _ _ => rfl, fun _ _ => rfl, fun _ _ => rfl⟩

/-- C2: the parameter list aggregated at construction is the concatenation of
each child's own parameter list in child order: member order for `SkyModels`
and `BackgroundModels`, spatial then spectral for `SkyModel`; no renaming, no
deduplication, the very same entries. -/
theorem C2_parameter_aggregation :
    (∀ ms : List SkyLeaf,
      (SkyModels.init ms).parameters = (ms.map SkyLeaf.parameters).flatten)
    ∧ (∀ (spatial : SpatialModel) (spectral : SpectralModel) (n : String),
      (SkyModel.init spatial spectral n).parameters = spatial.parameters ++ spectral.parameters)
    ∧ (∀ ms : List BackgroundModel,
      (BackgroundModels.init ms).parameters = (ms.map BackgroundModel.parameters).flatten) :=
  ⟨fun ms => by simpa using foldl_append_eq_flatten SkyLeaf.parameters ms [],
   fun _ _ _ => rfl,
   fun ms => by simpa using foldl_append_eq_flatten BackgroundModel.parameters ms []⟩

/-- C3 counterexample: extend an empty `SkyModels` in place with a two-parameter
leaf; the stored aggregated parameter list stays `[]`, while the members'
concatenated parameter lists are `[pEx1, pEx2]` — the claim that `+=` re-runs
aggregation fails at this input. -/
theorem C3_counterexample :
    (SkyModels.iadd (SkyModels.init []) (.leaf (.model skyModelEx))).map
        SkyModels.parameters = .ok []
    ∧ (SkyModels.iadd (SkyModels.init []) (.leaf (.model skyModelEx))).map
        (fun s => (s.skymodels.map SkyLeaf.parameters).flatten) = .ok [pEx1, pEx2]
    ∧ ([] : List Parameter) ≠ [pEx1, pEx2] :=
  ⟨rfl, rfl, (List.cons_ne_nil pEx1 [pEx2]).symm⟩

/-- C3 (amended): the in-place extend operators append the right operand's
members to the member list but leave the stored aggregated parameter list
unchanged, so it misses the newly added members' parameters; and
`BackgroundModels.__add__`, being a copy followed by `+=`, likewise yields a
collection whose aggregated parameter list is the left operand's alone.
Aggregation runs at construction (`__init__`) and is not re-run on membership
change. -/
theorem C3_iadd_appends_but_keeps_parameters :
    (∀ (s : SkyModels) (m : SkyLeaf),
      SkyModels.iadd s (.leaf m) = .ok ⟨s.skymodels ++ [m], s.parameters⟩)
    ∧ (∀ s t : SkyModels,
      SkyModels.iadd s (.models t) = .ok ⟨s.skymodels ++ t.skymodels, s.parameters⟩)
    ∧ (∀ (s : BackgroundModels) (m : BackgroundModel),
      BackgroundModels.iadd s (.model m) = .ok ⟨s.models ++ [m], s.parameters⟩)
    ∧ (∀ s t : BackgroundModels,
      BackgroundModels.iadd s (.models t) = .ok ⟨s.models ++ t.models, s.parameters⟩)
    ∧ (∀ (s : BackgroundModels) (m : BackgroundModel),
      BackgroundModels.add s (.model m) = .ok ⟨s.models ++ [m], s.parameters⟩)
    ∧ (∀ s t : BackgroundModels,
      BackgroundModels.add s (.models t) = .ok ⟨s.models ++ t.models, s.parameters⟩) :=
  ⟨fun _ _ => rfl, fun _ _ => rfl, fun _ _ => rfl, fun _ _ => rfl,
   fun _ _ => rfl, fun _ _ => rfl⟩

/-- C5: reflected addition delegates to the forward form (`__radd__` calls
`self.__add__(model)`), so the leaf case equals the forward result and the
ordering rule is preserved through reflection: the delegated forward add lists
its receiver's members first, then the other operand's. -/
theorem C5_reflected_addition :
    (∀ (a : SkyLeaf) (x : SkyAddend), SkyModelBase.radd a x = SkyModelBase.add a x)
    ∧ (∀ a b : SkyLeaf,
      (SkyModelBase.radd a (.leaf b)).map SkyModels.skymodels = .ok [a, b])
    ∧ (∀ (a : SkyLeaf) (s : SkyModels),
      (SkyModelBase.radd a (.models s)).map SkyModels.skymodels = .ok (a :: s.skymodels)) :=
  ⟨fun _ _ => rfl, fun _ _ => rfl, fun _ _ => rfl⟩

/-- C6: construction-time axis validation — a cube template over a map with
bin-edge energy nodes is rejected, and a background model over a map with
bin-center energy nodes is rejected, before any model value exists to
evaluate. -/
theorem C6_axis_validation :
    (∀ (m : Map) (norm : ℝ) (meta : Option (List (String × String)))
        (kw : Option InterpKwargs), m.geom.energyAxis.nodeType = NodeType.edges →
      SkyDiffuseCube.init m norm meta kw = .error .invalidAxisSemantics)
    ∧ (∀ (m : Map) (norm tilt reference : ℝ),
        m.geom.energyAxis.nodeType = NodeType.center →
      BackgroundModel.init m norm tilt reference = .error .invalidAxisSemantics) := by
  constructor
  · intro m norm meta kw h
    simp [SkyDiffuseCube.init, h]
  · intro m norm tilt reference h
    simp [BackgroundModel.init, h]

/-- C6 witness: the validation errors at concrete maps. -/
theorem C6_axis_validation_witness :
    SkyDiffuseCube.init mapEdgesEx 1 none none = .error .invalidAxisSemantics
    ∧ BackgroundModel.init mapCenterEx 1 0 1 = .error .invalidAxisSemantics :=
  ⟨C6_axis_validation.1 mapEdgesEx 1 none none rfl,
   C6_axis_validation.2 mapCenterEx 1 0 1 rfl⟩

/-- C7 counterexample: evaluating the empty `SkyModels` fails with the index
error of `self.skymodels[0]` and the empty `BackgroundModels` with the
unbound-local failure of `return vals` — neither is the designed
`EmptyCollection` error the claim names. -/
theorem C7_counterexample :
    SkyModels.evaluate ⟨[], []⟩ ⟨0⟩ ⟨0⟩ 0 = .error .indexError
    ∧ BackgroundModels.evaluate ⟨[], []⟩ = .error .unboundLocal
    ∧ Err.indexError ≠ Err.emptyCollection
    ∧ Err.unboundLocal ≠ Err.emptyCollection :=
  ⟨rfl, rfl, by decide, by decide⟩

/-- C7 (amended): evaluating an empty collection does fail rather than
silently return zero or a default, but with the accidental error of the
unguarded first-member access — an index error for `SkyModels`, an
unbound-local failure for `BackgroundModels` — not a designed
`EmptyCollection` error. -/
theorem C7_empty_evaluation_fails :
    (∀ (ps : List Parameter) (lon lat : Angle) (energy : ℝ),
      SkyModels.evaluate ⟨[], ps⟩ lon lat energy = .error .indexError)
    ∧ (∀ ps : List Parameter, BackgroundModels.evaluate ⟨[], ps⟩ = .error .unboundLocal) :=
  ⟨fun _ _ _ _ => rfl, fun _ => rfl⟩

/-- C4: for a constructed background model, `evaluate()` returns a map with
the input map's geometry and unit whose data is
`norm * map.data * (energy_center / reference) ^ (-tilt)` with the tilt factor
broadcast over the spatial axes, and `tilt = 0` reproduces `norm * map.data`
exactly. -/
theorem C4_background_evaluate (background : Map) (norm tilt reference : ℝ)
    (m : BackgroundModel)
    (h : BackgroundModel.init background norm tilt reference = .ok m) :
    m.evaluate.geom = background.geom
    ∧ m.evaluate.unit = background.unit
    ∧ (∀ e y x, m.evaluate.data e y x
        = norm * background.data e y x
            * (background.geom.energyAxis.center e / reference) ^ (-tilt))
    ∧ (tilt = 0 → ∀ e y x, m.evaluate.data e y x = norm * background.data e y x) := by
  unfold BackgroundModel.init at h
  split at h
  · exact absurd h (by simp)
  · injection h with h'
    subst h'
    refine ⟨rfl, rfl, fun e y x => rfl, ?_⟩
    intro ht e y x
    show norm * background.data e y x
        * (background.geom.energyAxis.center e / reference) ^ (-tilt)
      = norm * background.data e y x
    rw [ht, neg_zero, Real.rpow_zero, mul_one]

/-- C4 witness: a concrete background model with `norm = 2`, `tilt = 0`. -/
theorem C4_background_evaluate_witness :
    bgModelEx.evaluate.unit = mapEdgesEx.unit
    ∧ (∀ e y x, bgModelEx.evaluate.data e y x = 2 * mapEdgesEx.data e y x) := by
  have h := C4_background_evaluate mapEdgesEx 2 0 1 bgModelEx rfl
  exact ⟨h.2.1, h.2.2.2 rfl⟩

/-- C8: `SkyModel.evaluate` is the element-wise product of the spatial output
at `(lon, lat)` and the spectral output at `energy` under numpy broadcasting;
broadcast-incompatible component shapes fail with `shapeMismatch`; at scalar
coordinates the result is the plain product (the function is pure — nothing is
cached between calls). -/
theorem C8_factorised_product (m : SkyModel) (lon lat energy : NdArr) :
    (∀ sh : List ℕ,
      broadcastShapes (m.spatial_model.call lon lat).shape
          (m.spectral_model.call energy).shape = some sh →
      m.evaluateArr lon lat energy
        = .ok ⟨sh, fun idx =>
            (m.spatial_model.call lon lat).data
                (bIdx (m.spatial_model.call lon lat).shape idx)
              * (m.spectral_model.call energy).data
                (bIdx (m.spectral_model.call energy).shape idx)⟩)
    ∧ (broadcastShapes (m.spatial_model.call lon lat).shape
          (m.spectral_model.call energy).shape = none →
      m.evaluateArr lon lat energy = .error .shapeMismatch)
    ∧ (∀ (lo la : Angle) (e : ℝ),
      m.evaluate lo la e = m.spatial_model.eval lo la * m.spectral_model.eval e) := by
  refine ⟨fun sh hsh => ?_, fun hnone => ?_, fun _ _ _ => rfl⟩
  · simp only [SkyModel.evaluateArr, NdArr.mul, hsh]
  · simp only [SkyModel.evaluateArr, NdArr.mul, hnone]

/-- C8 witness: compatible shapes `[2]`/`[2]` multiply element-wise;
incompatible shapes `[2]`/`[3]` fail with `shapeMismatch`. -/
theorem C8_factorised_product_witness :
    SkyModel.evaluateArr skyModelEx arr2 arr2 arr2
      = .ok ⟨[2], fun idx => arr2.data (bIdx arr2.shape idx) * arr2.data (bIdx arr2.shape idx)⟩
    ∧ SkyModel.evaluateArr skyModelEx arr2 arr2 arr3 = .error .shapeMismatch :=
  ⟨(C8_factorised_product skyModelEx arr2 arr2 arr2).1 [2] rfl,
   (C8_factorised_product skyModelEx arr2 arr2 arr3).2.1 rfl⟩

/-- C9: a constructed cube template evaluates by converting `lon`/`lat` to
degree values, interpolating the map at the coordinate record with the
configured mode and fill value (defaulting to `"linear"` and `0` when no
kwargs were supplied), and returning the interpolated value scaled by `norm`
and tagged with the map's unit; an out-of-domain coordinate yields
`norm * fill_value` and never fails. -/
theorem C9_cube_evaluate (map : Map) (norm : ℝ)
    (meta : Option (List (String × String))) (kw : Option InterpKwargs)
    (c : SkyDiffuseCube) (h : SkyDiffuseCube.init map norm meta kw = .ok c)
    (lon lat : Angle) (energy : ℝ) :
    c.evaluate lon lat energy
      = ⟨norm * map.interp_by_coord ⟨lon.deg, lat.deg, energy⟩ c.interp c.fill_value,
         map.unit⟩
    ∧ (kw = none → c.interp = "linear" ∧ c.fill_value = 0)
    ∧ (map.inDomain ⟨lon.deg, lat.deg, energy⟩ = false →
      (c.evaluate lon lat energy).value = norm * c.fill_value) := by
  unfold SkyDiffuseCube.init at h
  split at h
  · exact absurd h (by simp)
  · injection h with h'
    subst h'
    refine ⟨rfl, fun hkw => ?_, fun hdom => ?_⟩
    · subst hkw; exact ⟨rfl, rfl⟩
    · show norm * Map.interp_by_coord map ⟨lon.deg, lat.deg, energy⟩ _ _ = norm * _
      rw [Map.interp_by_coord, hdom]
      simp

/-- C9 witness: a concrete cube with `norm = 3` and default kwargs over a map
whose domain is empty, queried at `(0, 0, 1)`. -/
theorem C9_cube_evaluate_witness :
    cubeEx.evaluate ⟨0⟩ ⟨0⟩ 1
      = ⟨3 * mapCenterEx.interp_by_coord ⟨0, 0, 1⟩ cubeEx.interp cubeEx.fill_value,
         mapCenterEx.unit⟩
    ∧ cubeEx.interp = "linear"
    ∧ cubeEx.fill_value = 0
    ∧ (cubeEx.evaluate ⟨0⟩ ⟨0⟩ 1).value = 3 * cubeEx.fill_value := by
  have h := C9_cube_evaluate mapCenterEx 3 none none cubeEx rfl ⟨0⟩ ⟨0⟩ 1
  exact ⟨h.1, (h.2.1 rfl).1, (h.2.1 rfl).2, h.2.2 rfl⟩

/-- C10: `BackgroundModel.evaluate` is read-only on the model and its wrapped
array: the post-state of `self` equals the pre-state, every array allocated
before the call is unchanged, and the returned map's data lives at a freshly
allocated reference, so writing through the returned map leaves the wrapped
array untouched. -/
theorem C10_evaluate_frame (s : Store) (m : BackgroundModelRef)
    (h : m.map.dataRef < s.arrays.length) :
    (BackgroundModelRef.evaluateRef s m).2.1 = m
    ∧ (∀ i, i < s.arrays.length →
        (BackgroundModelRef.evaluateRef s m).1.lookup i = s.lookup i)
    ∧ (BackgroundModelRef.evaluateRef s m).2.2.dataRef ≠ m.map.dataRef
    ∧ (∀ d : ArrData,
        ((BackgroundModelRef.evaluateRef s m).1.write
            (BackgroundModelRef.evaluateRef s m).2.2.dataRef d).lookup m.map.dataRef
          = s.lookup m.map.dataRef) := by
  refine ⟨rfl, fun i hi => ?_, ?_, fun d => ?_⟩
  · simp only [BackgroundModelRef.evaluateRef, Store.alloc, Store.lookup]
    exact List.getD_append _ _ _ _ hi
  · simp only [BackgroundModelRef.evaluateRef, Store.alloc]
    exact (Nat.ne_of_lt h).symm
  · simp only [BackgroundModelRef.evaluateRef, Store.alloc, Store.write, Store.lookup]
    rw [set_append_last]
    exact List.getD_append _ _ _ _ h

/-- C10 witness: a one-array store and a model whose map points at it. -/
theorem C10_evaluate_frame_witness :
    (BackgroundModelRef.evaluateRef storeEx bgRefEx).2.1 = bgRefEx
    ∧ (BackgroundModelRef.evaluateRef storeEx bgRefEx).2.2.dataRef ≠ bgRefEx.map.dataRef := by
  have h := C10_evaluate_frame storeEx bgRefEx (by decide)
  exact ⟨h.1, h.2.2.1⟩

end Gammapy
